import Mathlib

/-
Shallow embedding of the session-and-permission authorization core of the
glucoguard_Adv application:
  - access_control.rs : Permission, Role, Role::default_permissions, Role::has_permission
  - session.rs        : Session, Session::is_expired, SessionManager
  - db/queries.rs     : sessions-table queries (add_session_to_db, deactivate_session,
                        get_session_by_id, deactivate_expired_sessions)

Modelling conventions:
  - Wall-clock time is a Nat of whole seconds since UNIX_EPOCH (the DB schema
    stores creation_time and expiration_time in whole seconds).
  - The sessions table (SQLite) is a List SessionRecord in insertion order;
    a SELECT ... WHERE col = ?1 taking the first row is List.find?.
  - rusqlite failures are modelled where a claim needs them: check_permissions
    takes the raw query result (Except), and create_session takes a flag saying
    whether the single INSERT it issues fails (a failed INSERT writes no row).
-/

namespace Glucoguard

/-- The closed permission enumeration of access_control.rs (lines 7-17). -/
inductive Permission
  | ViewPatient
  | CreateClinicianAccount
  | RemoveClinicianAccount
  | CreatePatientAccount
  | CreateCaretakerLink
  | EditPatientData
  | ViewGlucose
  | AddGlucose
  | ViewAlerts
deriving DecidableEq

/-- Role of access_control.rs (lines 37-41); the HashSet of permissions is a
Finset. -/
structure Role where
  name : String
  id : String
  permissions : Finset Permission

/-- Role::default_permissions (access_control.rs lines 61-103): a case-sensitive
first-match on the role name; the wildcard arm only prints a warning and leaves
the set empty. The Rust match on string literals is an equality chain. -/
def Role.default_permissions (role_name : String) : Finset Permission :=
  if role_name = "admin" then
    {Permission.CreateClinicianAccount, Permission.RemoveClinicianAccount}
  else if role_name = "clinician" then
    {Permission.CreatePatientAccount, Permission.EditPatientData,
     Permission.ViewGlucose, Permission.ViewAlerts, Permission.ViewPatient}
  else if role_name = "patient" then
    {Permission.ViewPatient, Permission.ViewGlucose,
     Permission.AddGlucose, Permission.CreateCaretakerLink}
  else if role_name = "caretaker" then
    {Permission.ViewPatient, Permission.ViewGlucose,
     Permission.AddGlucose, Permission.ViewAlerts}
  else if role_name = "Auditor" then
    {Permission.ViewGlucose, Permission.AddGlucose,
     Permission.ViewAlerts, Permission.ViewPatient}
  else
    ∅

/-- Role::new (access_control.rs lines 45-54). -/
def Role.new (name : String) (id : String) : Role :=
  { name := name, id := id, permissions := Role.default_permissions name }

/-- Role::has_permission (access_control.rs lines 57-59): set membership. -/
def Role.has_permission (r : Role) (permission : Permission) : Bool :=
  decide (permission ∈ r.permissions)

/-- Session (session.rs lines 16-23). create_time is seconds since UNIX_EPOCH,
exp_time a duration in seconds. -/
structure Session where
  session_id : String
  user_id : String
  role : String
  create_time : Nat
  exp_time : Nat
  active : Bool
deriving DecidableEq

/-- Session::is_expired (session.rs lines 26-28):
`create_time.elapsed().unwrap_or_default() > exp_time`. SystemTime::elapsed
fails when the clock now reads earlier than create_time, and unwrap_or_default
then yields the zero duration - exactly truncated Nat subtraction. The clock
`now` is an argument: the predicate is a function of the current time, read on
every call. -/
def Session.is_expired (s : Session) (now : Nat) : Bool :=
  decide (now - s.create_time > s.exp_time)

/-- One row of the sessions table (db/initialize.rs lines 100-107). -/
structure SessionRecord where
  session_id : String
  user_id : String
  role : String
  creation_time : Nat
  expiration_time : Nat
  active : Bool
deriving DecidableEq

namespace queries

/-- add_session_to_db (db/queries.rs lines 379-414): INSERT of one row. The
inserted active column is the literal `true` bound at line 388, not
session.active. -/
def add_session_to_db (table : List SessionRecord) (session : Session) :
    List SessionRecord :=
  table ++ [{ session_id := session.session_id
            , user_id := session.user_id
            , role := session.role
            , creation_time := session.create_time
            , expiration_time := session.exp_time
            , active := true }]

/-- deactivate_session (db/queries.rs lines 418-421):
UPDATE sessions SET active = 0 WHERE session_id = ?1. An UPDATE matching zero
rows is still Ok, so the operation is total on the table. -/
def deactivate_session (table : List SessionRecord) (session_id : String) :
    List SessionRecord :=
  table.map fun r =>
    if r.session_id = session_id then { r with active := false } else r

/-- get_session_by_id (db/queries.rs lines 454-479): SELECT of the first row
with the given session_id. The SELECT list (line 456) omits the active column
and the reconstructed Session hardcodes `active: true` (line 474); there is no
filter on active. -/
def get_session_by_id (table : List SessionRecord) (session_id : String) :
    Option Session :=
  match table.find? (fun r => r.session_id = session_id) with
  | some r =>
      some { session_id := r.session_id
           , user_id := r.user_id
           , role := r.role
           , create_time := r.creation_time
           , exp_time := r.expiration_time
           , active := true }
  | none => none

/-- deactivate_expired_sessions (db/queries.rs lines 483-494):
UPDATE sessions SET active = 0 WHERE (?1 - creation_time) > expiration_time,
one batched statement over the whole table; SQLite evaluates the WHERE
arithmetic over signed integers. -/
def deactivate_expired_sessions (table : List SessionRecord) (now_secs : Nat) :
    List SessionRecord :=
  table.map fun r =>
    if (now_secs : Int) - (r.creation_time : Int) > (r.expiration_time : Int)
    then { r with active := false } else r

end queries

/-- Rust str::ends_with: byte-suffix test. Core String.endsWith is the same
test but is defined by well-founded recursion; this structural form (a
char-list suffix test, which agrees with the byte-suffix test because a UTF-8
continuation byte is never an ASCII digit) evaluates on concrete input. -/
def ends_with (s : String) (post : String) : Bool :=
  post.data.isSuffixOf s.data

/-- One lowercase hex digit, as produced by hex::encode. -/
def hexDigit (n : Nat) : Char :=
  if n < 10 then Char.ofNat (48 + n) else Char.ofNat (97 + (n - 10))

/-- hex::encode of a byte slice: two lowercase hex characters per byte, high
nibble first (session.rs line 45 encodes the 32 random token bytes). -/
def hexEncode (bytes : List Nat) : String :=
  String.mk (bytes.foldr (fun b acc => hexDigit (b / 16) :: hexDigit (b % 16) :: acc) [])

/-- A lowercase hexadecimal character. -/
def isHexLower (c : Char) : Bool :=
  c.isDigit || ('a' ≤ c && c ≤ 'f')

namespace SessionManager

/-- The bypass test of check_permissions (session.rs line 119):
`session_id.len() == 60 && session_id.ends_with("00")`. Rust str::len is the
UTF-8 byte length. -/
def is_system_bypass (session_id : String) : Bool :=
  session_id.utf8ByteSize == 60 && ends_with session_id "00"

/-- SessionManager::check_permissions (session.rs lines 111-143). `lookup` is
the value returned by queries::get_session_by_id on the given connection and
session_id (Except models rusqlite::Result); `now` is the wall clock at the
is_expired call. The bypass branch returns before any store access, so the
result there is independent of `lookup`. -/
def check_permissions (session_id : String) (role : Role)
    (req_permission : Permission) (lookup : Except String (Option Session))
    (now : Nat) : Bool :=
  if is_system_bypass session_id then
    true
  else
    match lookup with
    | Except.ok (some session) =>
        if session.is_expired now then false
        else role.has_permission req_permission
    | Except.ok none => false
    | Except.error _ => false

/-- check_permissions run against a healthy store holding `table`: the query
of session.rs line 123 is queries::get_session_by_id. -/
def check_permissions_db (table : List SessionRecord) (session_id : String)
    (role : Role) (req_permission : Permission) (now : Nat) : Bool :=
  check_permissions session_id role req_permission
    (Except.ok (queries.get_session_by_id table session_id)) now

/-- SessionManager::create_session (session.rs lines 41-61). `randomBytes` is
the 32-byte output of the thread RNG, `now` the creation clock; `writeFails`
says whether the single INSERT issued through add_session_to_db fails (a failed
INSERT writes no row, so the table is returned unchanged in that case). Result:
the rusqlite::Result of the Rust function, paired with the resulting table. -/
def create_session (table : List SessionRecord) (user_id : String)
    (role : String) (randomBytes : List Nat) (now : Nat) (writeFails : Bool) :
    Except String String × List SessionRecord :=
  let session_id := hexEncode randomBytes
  let session : Session :=
    { session_id := session_id
    , user_id := user_id
    , role := role
    , create_time := now
    , exp_time := 60 * 60
    , active := true }
  if writeFails then (Except.error "db error", table)
  else (Except.ok session_id, queries.add_session_to_db table session)

/-- SessionManager::get_session_by_id (session.rs lines 71-76): the store row,
kept only when not expired (the success path; a store error also yields none). -/
def get_session_by_id (table : List SessionRecord) (session_id : String)
    (now : Nat) : Option Session :=
  match queries.get_session_by_id table session_id with
  | some session =>
      if session.is_expired now then none else some session
  | none => none

end SessionManager

end Glucoguard

namespace Glucoguard

/-! ## Helper lemmas -/

theorem utf8Size_hexDigit : ∀ n, n < 16 → (hexDigit n).utf8Size = 1 := by decide

theorem isHexLower_hexDigit : ∀ n, n < 16 → isHexLower (hexDigit n) = true := by decide

theorem hexData_length (bytes : List Nat) :
    (bytes.foldr (fun b acc => hexDigit (b / 16) :: hexDigit (b % 16) :: acc) []).length
      = 2 * bytes.length := by
  induction bytes with
  | nil => rfl
  | cons b bs ih => simp only [List.foldr_cons, List.length_cons, ih]; omega

theorem hexEncode_length (bytes : List Nat) :
    (hexEncode bytes).length = 2 * bytes.length :=
  hexData_length bytes

theorem utf8ByteSize_go_ascii (l : List Char) (h : ∀ c ∈ l, c.utf8Size = 1) :
    String.utf8ByteSize.go l = l.length := by
  induction l with
  | nil => rfl
  | cons c cs ih =>
    have hc : c.utf8Size = 1 := h c (by simp)
    have ih' := ih (fun x hx => h x (by simp [hx]))
    show String.utf8ByteSize.go cs + c.utf8Size = cs.length + 1
    rw [hc, ih']

theorem hexData_ascii (bytes : List Nat) (h : ∀ b ∈ bytes, b < 256) :
    ∀ c ∈ bytes.foldr (fun b acc => hexDigit (b / 16) :: hexDigit (b % 16) :: acc) [],
      c.utf8Size = 1 := by
  induction bytes with
  | nil => intro c hc; exact absurd hc (List.not_mem_nil c)
  | cons b bs ih =>
    intro c hc
    have hb : b < 256 := h b (by simp)
    have h16a : b / 16 < 16 := by omega
    have h16b : b % 16 < 16 := Nat.mod_lt _ (by omega)
    simp only [List.foldr_cons, List.mem_cons] at hc
    rcases hc with rfl | rfl | hc
    · exact utf8Size_hexDigit _ h16a
    · exact utf8Size_hexDigit _ h16b
    · exact ih (fun x hx => h x (by simp [hx])) c hc

theorem hexEncode_utf8ByteSize (bytes : List Nat) (h : ∀ b ∈ bytes, b < 256) :
    (hexEncode bytes).utf8ByteSize = 2 * bytes.length := by
  have h1 := utf8ByteSize_go_ascii _ (hexData_ascii bytes h)
  have h2 := hexData_length bytes
  exact h1.trans h2

theorem hexData_all_hex (bytes : List Nat) (h : ∀ b ∈ bytes, b < 256) :
    ∀ c ∈ bytes.foldr (fun b acc => hexDigit (b / 16) :: hexDigit (b % 16) :: acc) [],
      isHexLower c = true := by
  induction bytes with
  | nil => intro c hc; exact absurd hc (List.not_mem_nil c)
  | cons b bs ih =>
    intro c hc
    have hb : b < 256 := h b (by simp)
    simp only [List.foldr_cons, List.mem_cons] at hc
    rcases hc with rfl | rfl | hc
    · exact isHexLower_hexDigit _ (by omega)
    · exact isHexLower_hexDigit _ (Nat.mod_lt _ (by omega))
    · exact ih (fun x hx => h x (by simp [hx])) c hc

/-! ## Claims -/

/-- Claim C3: Session::is_expired is true iff the elapsed time since
create_time strictly exceeds exp_time, false otherwise (elapsed time is the
truncated difference now - create_time, zero when the clock reads before
create_time, as unwrap_or_default yields); it is a pure function of the clock
argument and the two time fields, so it is recomputed from the clock on every
call and depends on no cached state (in particular not on the active flag). -/
theorem claim_C3 (s : Session) (now : Nat) :
    (s.is_expired now = true ↔ now - s.create_time > s.exp_time)
    ∧ (s.is_expired now = false ↔ now - s.create_time ≤ s.exp_time)
    ∧ (∀ s' : Session, s'.create_time = s.create_time → s'.exp_time = s.exp_time →
        s'.is_expired now = s.is_expired now) := by
  refine ⟨by simp [Session.is_expired], by simp [Session.is_expired], ?_⟩
  intro s' h1 h2
  simp [Session.is_expired, h1, h2]

/-- Witness for C3: a session created at time 0 with a 3600 s lifetime is
expired at clock 3601. -/
theorem claim_C3_witness :
    ({ session_id := "s", user_id := "u", role := "r", create_time := 0,
       exp_time := 3600, active := true } : Session).is_expired 3601 = true :=
  (claim_C3 _ 3601).1.mpr (by decide)

/-- Claim C4: the permission set for "admin" contains CreateClinicianAccount
and RemoveClinicianAccount and not ViewGlucose; "Admin" yields the empty set;
every role name other than the five entries of the capability map yields the
empty set (case-sensitive, fail-closed). -/
theorem claim_C4 :
    Permission.CreateClinicianAccount ∈ Role.default_permissions "admin"
    ∧ Permission.RemoveClinicianAccount ∈ Role.default_permissions "admin"
    ∧ Permission.ViewGlucose ∉ Role.default_permissions "admin"
    ∧ Role.default_permissions "Admin" = ∅
    ∧ (∀ role_name : String,
        role_name ≠ "admin" → role_name ≠ "clinician" → role_name ≠ "patient" →
        role_name ≠ "caretaker" → role_name ≠ "Auditor" →
        Role.default_permissions role_name = ∅) := by
  refine ⟨by decide, by decide, by decide, by decide, ?_⟩
  intro n h1 h2 h3 h4 h5
  unfold Role.default_permissions
  rw [if_neg h1, if_neg h2, if_neg h3, if_neg h4, if_neg h5]

/-- Witness for C4: the unknown role name "root" gets the empty set. -/
theorem claim_C4_witness : Role.default_permissions "root" = ∅ :=
  claim_C4.2.2.2.2 "root" (by decide) (by decide) (by decide) (by decide) (by decide)

/-- Claim C7: deactivate_session is idempotent; on a table with no record for
the id it is the identity (and the UPDATE still succeeds, the operation being
total); on a table whose records for the id are already inactive it is also
the identity, so a second call leaves the store exactly as the first did. -/
theorem claim_C7 (table : List SessionRecord) (session_id : String) :
    queries.deactivate_session (queries.deactivate_session table session_id) session_id
      = queries.deactivate_session table session_id
    ∧ ((∀ r ∈ table, r.session_id ≠ session_id) →
        queries.deactivate_session table session_id = table)
    ∧ ((∀ r ∈ table, r.session_id = session_id → r.active = false) →
        queries.deactivate_session table session_id = table) := by
  refine ⟨?_, ?_, ?_⟩
  · induction table with
    | nil => rfl
    | cons r t ih =>
      simp only [queries.deactivate_session, List.map_cons] at ih ⊢
      by_cases h : r.session_id = session_id
      · simp [h, ih]
      · simp [h, ih]
  · intro h
    induction table with
    | nil => rfl
    | cons r t ih =>
      have hr : r.session_id ≠ session_id := h r (by simp)
      simp only [queries.deactivate_session, List.map_cons, if_neg hr]
      have := ih (fun x hx => h x (by simp [hx]))
      simp only [queries.deactivate_session] at this
      rw [this]
  · intro h
    induction table with
    | nil => rfl
    | cons r t ih =>
      have := ih (fun x hx hid => h x (by simp [hx]) hid)
      simp only [queries.deactivate_session, List.map_cons] at this ⊢
      rw [this]
      by_cases hr : r.session_id = session_id
      · have ha : r.active = false := h r (by simp) hr
        rw [if_pos hr, ← ha]
      · rw [if_neg hr]

/-- Witness for C7: deactivating an id that has no record leaves the
one-record table unchanged. -/
theorem claim_C7_witness :
    queries.deactivate_session
      [{ session_id := "s1", user_id := "u", role := "r", creation_time := 0,
         expiration_time := 3600, active := true }] "other"
      = [{ session_id := "s1", user_id := "u", role := "r", creation_time := 0,
           expiration_time := 3600, active := true }] :=
  (claim_C7 _ "other").2.1 (by decide)

/-- Claim C8: for a token not matching the bypass pattern, a store error on
the session lookup makes check_permissions return false — a store failure is
never treated as authorized. -/
theorem claim_C8 (session_id : String) (role : Role) (req_permission : Permission)
    (now : Nat) (e : String)
    (hb : SessionManager.is_system_bypass session_id = false) :
    SessionManager.check_permissions session_id role req_permission
      (Except.error e) now = false := by
  simp [SessionManager.check_permissions, hb]

/-- Witness for C8: an I/O error on the lookup of the ordinary token "tok"
yields false even for a role holding the permission. -/
theorem claim_C8_witness :
    SessionManager.check_permissions "tok" (Role.new "admin" "1")
      Permission.CreateClinicianAccount (Except.error "io") 0 = false :=
  claim_C8 "tok" (Role.new "admin" "1") Permission.CreateClinicianAccount 0 "io" (by decide)


/-- Claim C1: check_permissions authorizes any token matching the bypass
pattern (UTF-8 byte length exactly 60 with suffix "00") regardless of the
store's answer - no store lookup affects the result - and for every other
token it returns true iff the store resolves the token to a session that is
not expired and the caller's role holds the required permission. -/
theorem claim_C1 (table : List SessionRecord) (session_id : String) (role : Role)
    (req_permission : Permission) (now : Nat) :
    (SessionManager.is_system_bypass session_id = true →
      ∀ lookup : Except String (Option Session),
        SessionManager.check_permissions session_id role req_permission lookup now = true)
    ∧ (SessionManager.is_system_bypass session_id = false →
      (SessionManager.check_permissions_db table session_id role req_permission now = true ↔
        ∃ s : Session, queries.get_session_by_id table session_id = some s
          ∧ s.is_expired now = false ∧ role.has_permission req_permission = true)) := by
  constructor
  · intro hb lookup
    simp [SessionManager.check_permissions, hb]
  · intro hb
    unfold SessionManager.check_permissions_db SessionManager.check_permissions
    rw [hb]
    cases hgs : queries.get_session_by_id table session_id with
    | none => simp
    | some s =>
      by_cases he : s.is_expired now = true
      · simp [he]
      · rw [Bool.not_eq_true] at he
        simp [he]

/-- Witness for C1: a 60-byte token ending in "00" is authorized even when the
store is down and the role is unknown; an ordinary token against the empty
store satisfies the store-resolution characterization. -/
theorem claim_C1_witness :
    SessionManager.check_permissions (String.mk (List.replicate 58 'a' ++ ['0', '0']))
      (Role.new "unknown" "1") Permission.ViewGlucose (Except.error "down") 5 = true
    ∧ (SessionManager.check_permissions_db [] "tok" (Role.new "admin" "1")
        Permission.ViewGlucose 5 = true ↔
      ∃ s : Session, queries.get_session_by_id [] "tok" = some s
        ∧ s.is_expired 5 = false
        ∧ (Role.new "admin" "1").has_permission Permission.ViewGlucose = true) :=
  ⟨(claim_C1 [] (String.mk (List.replicate 58 'a' ++ ['0', '0']))
      (Role.new "unknown" "1") Permission.ViewGlucose 5).1 (by decide) (Except.error "down"),
   (claim_C1 [] "tok" (Role.new "admin" "1") Permission.ViewGlucose 5).2 (by decide)⟩

/-- Claim C2 is refuted by the code (Scenario D fails): after a successful
deactivate_session on a freshly minted token, check_permissions still returns
true while the session is unexpired, because queries::get_session_by_id neither
selects nor filters the active column and hardcodes active = true. This
theorem evaluates the embedding on the failing input: the token minted from 32
bytes 0xaa at time 0 for role name "admin", deactivated (the sole store record
then has active = false), and checked 100 s later with the admin role and
CreateClinicianAccount. The claim requires false; the code yields true. -/
theorem claim_C2_code_eval :
    (SessionManager.create_session [] "u1" "admin" (List.replicate 32 170) 0 false).1
        = Except.ok (hexEncode (List.replicate 32 170))
    ∧ (queries.deactivate_session
        (SessionManager.create_session [] "u1" "admin" (List.replicate 32 170) 0 false).2
        (hexEncode (List.replicate 32 170))).map (fun r => r.active) = [false]
    ∧ SessionManager.check_permissions_db
        (queries.deactivate_session
          (SessionManager.create_session [] "u1" "admin" (List.replicate 32 170) 0 false).2
          (hexEncode (List.replicate 32 170)))
        (hexEncode (List.replicate 32 170))
        (Role.new "admin" "a1") Permission.CreateClinicianAccount 100 = true :=
  ⟨rfl, by decide, by decide⟩

/-- Claim C5: create_session builds a session whose validity duration is
exactly 3600 seconds and whose token is the 64-character lowercase-hex
encoding of the 32 random bytes; it fails exactly when the store write fails,
and a failed INSERT leaves the table without the new record. -/
theorem claim_C5 (table : List SessionRecord) (user_id role_name : String)
    (randomBytes : List Nat) (now : Nat) (writeFails : Bool)
    (hlen : randomBytes.length = 32) (hbyte : ∀ b ∈ randomBytes, b < 256) :
    (writeFails = false →
      SessionManager.create_session table user_id role_name randomBytes now writeFails
        = (Except.ok (hexEncode randomBytes),
           table ++ [{ session_id := hexEncode randomBytes, user_id := user_id,
                       role := role_name, creation_time := now,
                       expiration_time := 3600, active := true }]))
    ∧ (hexEncode randomBytes).length = 64
    ∧ (hexEncode randomBytes).data.all isHexLower = true
    ∧ ((∃ e, (SessionManager.create_session table user_id role_name randomBytes now writeFails).1
          = Except.error e) ↔ writeFails = true)
    ∧ (writeFails = true →
        (SessionManager.create_session table user_id role_name randomBytes now writeFails).2
          = table) := by
  refine ⟨?_, ?_, ?_, ?_, ?_⟩
  · intro hw
    simp [SessionManager.create_session, queries.add_session_to_db, hw]
  · rw [hexEncode_length, hlen]
  · rw [List.all_eq_true]
    exact hexData_all_hex randomBytes hbyte
  · cases writeFails with
    | false => simp [SessionManager.create_session]
    | true => simp [SessionManager.create_session]
  · intro hw
    simp [SessionManager.create_session, hw]

/-- Witness for C5: minting from 32 zero bytes at time 10 with a healthy store
yields exactly the token and the one-record table with a 3600 s validity. -/
theorem claim_C5_witness :
    SessionManager.create_session [] "u1" "clinician" (List.replicate 32 0) 10 false
      = (Except.ok (hexEncode (List.replicate 32 0)),
         [{ session_id := hexEncode (List.replicate 32 0), user_id := "u1",
            role := "clinician", creation_time := 10, expiration_time := 3600,
            active := true }]) :=
  (claim_C5 [] "u1" "clinician" (List.replicate 32 0) 10 false (by decide) (by decide)).1 rfl

/-- Claim C6: one sweep marks inactive exactly the records whose age exceeds
their stored validity duration (a record is inactive afterwards iff it aged
out or was already inactive, all other columns untouched), and on the
Scenario E table - validities 3600 s, ages 3700 s and 1800 s at clock 10000 -
the first record comes out inactive and the second stays active. -/
theorem claim_C6 (table : List SessionRecord) (now_secs : Nat) :
    List.Forall₂ (fun r r' =>
      (r'.active = false ↔
        ((now_secs : Int) - (r.creation_time : Int) > (r.expiration_time : Int)
          ∨ r.active = false))
      ∧ r'.session_id = r.session_id ∧ r'.user_id = r.user_id
      ∧ r'.role = r.role ∧ r'.creation_time = r.creation_time
      ∧ r'.expiration_time = r.expiration_time)
      table (queries.deactivate_expired_sessions table now_secs)
    ∧ queries.deactivate_expired_sessions
        [{ session_id := "s1", user_id := "u1", role := "clinician",
           creation_time := 6300, expiration_time := 3600, active := true },
         { session_id := "s2", user_id := "u2", role := "clinician",
           creation_time := 8200, expiration_time := 3600, active := true }] 10000
      = [{ session_id := "s1", user_id := "u1", role := "clinician",
           creation_time := 6300, expiration_time := 3600, active := false },
         { session_id := "s2", user_id := "u2", role := "clinician",
           creation_time := 8200, expiration_time := 3600, active := true }] := by
  constructor
  · induction table with
    | nil => exact List.Forall₂.nil
    | cons r t ih =>
      simp only [queries.deactivate_expired_sessions, List.map_cons] at ih ⊢
      refine List.Forall₂.cons ?_ ih
      by_cases hc : (now_secs : Int) - (r.creation_time : Int) > (r.expiration_time : Int)
      · rw [if_pos hc]
        exact ⟨by simp [hc], rfl, rfl, rfl, rfl, rfl⟩
      · rw [if_neg hc]
        exact ⟨by simp [hc], rfl, rfl, rfl, rfl, rfl⟩
  · decide

/-- Claim C9: a minted token is the 64-character hex encoding of the 32 random
bytes, its UTF-8 byte length 64 can never meet the bypass test's required
length 60, so for every legitimately minted token the bypass branch of
check_permissions is not taken (with a failing store the check comes out
false, where the bypass would have returned true). -/
theorem claim_C9 (randomBytes : List Nat) (hlen : randomBytes.length = 32)
    (hbyte : ∀ b ∈ randomBytes, b < 256) :
    (hexEncode randomBytes).utf8ByteSize = 64
    ∧ (hexEncode randomBytes).length = 64
    ∧ SessionManager.is_system_bypass (hexEncode randomBytes) = false
    ∧ (∀ (table : List SessionRecord) (user_id role_name : String) (now : Nat),
        (SessionManager.create_session table user_id role_name randomBytes now false).1
          = Except.ok (hexEncode randomBytes))
    ∧ (∀ (role : Role) (req : Permission) (now : Nat) (e : String),
        SessionManager.check_permissions (hexEncode randomBytes) role req
          (Except.error e) now = false) := by
  have hsz : (hexEncode randomBytes).utf8ByteSize = 64 := by
    rw [hexEncode_utf8ByteSize randomBytes hbyte, hlen]
  have hbp : SessionManager.is_system_bypass (hexEncode randomBytes) = false := by
    unfold SessionManager.is_system_bypass
    rw [hsz]
    simp
  refine ⟨hsz, ?_, hbp, ?_, ?_⟩
  · rw [hexEncode_length, hlen]
  · intro table user_id role_name now
    rfl
  · intro role req now e
    simp [SessionManager.check_permissions, hbp]

/-- Witness for C9: the token minted from 32 bytes 0xaa does not satisfy the
bypass test. -/
theorem claim_C9_witness :
    SessionManager.is_system_bypass (hexEncode (List.replicate 32 170)) = false :=
  (claim_C9 (List.replicate 32 170) (by decide) (by decide)).2.2.1

/-- Claim C10: every Session returned by the store's by-id lookup has
active = true regardless of the stored active column; the lookup's answer is
unchanged by a deactivation of that id, and so is the SessionManager-level
lookup at every clock (the record keeps resolving until its lifetime
elapses). -/
theorem claim_C10 (table : List SessionRecord) (session_id : String) :
    (∀ s : Session, queries.get_session_by_id table session_id = some s → s.active = true)
    ∧ queries.get_session_by_id (queries.deactivate_session table session_id) session_id
        = queries.get_session_by_id table session_id
    ∧ (∀ now : Nat, SessionManager.get_session_by_id
        (queries.deactivate_session table session_id) session_id now
        = SessionManager.get_session_by_id table session_id now) := by
  have key : queries.get_session_by_id (queries.deactivate_session table session_id) session_id
      = queries.get_session_by_id table session_id := by
    induction table with
    | nil => rfl
    | cons r t ih =>
      simp only [queries.deactivate_session, List.map_cons] at ih ⊢
      by_cases hr : r.session_id = session_id
      · rw [if_pos hr]
        unfold queries.get_session_by_id
        rw [List.find?_cons_of_pos _ (by simp [hr]), List.find?_cons_of_pos _ (by simp [hr])]
      · rw [if_neg hr]
        unfold queries.get_session_by_id
        rw [List.find?_cons_of_neg _ (by simp [hr]), List.find?_cons_of_neg _ (by simp [hr])]
        exact ih
  refine ⟨?_, key, ?_⟩
  · intro s hs
    unfold queries.get_session_by_id at hs
    cases hf : List.find? (fun r => r.session_id = session_id) table with
    | none => rw [hf] at hs; exact absurd hs (by simp)
    | some r =>
      rw [hf] at hs
      simp only [Option.some.injEq] at hs
      rw [← hs]
  · intro now
    unfold SessionManager.get_session_by_id
    rw [key]

/-- Witness for C10: a record stored with active = false still resolves to a
Session whose active field is true. -/
theorem claim_C10_witness :
    ({ session_id := "s1", user_id := "u", role := "r", create_time := 5,
       exp_time := 3600, active := true } : Session).active = true :=
  (claim_C10 [{ session_id := "s1", user_id := "u", role := "r", creation_time := 5,
                expiration_time := 3600, active := false }] "s1").1
    { session_id := "s1", user_id := "u", role := "r", create_time := 5,
      exp_time := 3600, active := true } (by decide)

end Glucoguard
